import Mathlib

/-!
# isolated-vm: native module handle

A shallow embedding of `src/module/native_module_handle.cc`: the RAII wrapper
`NativeModule` around libuv's dynamic loader, the transferable
`NativeModuleHandle`, and the three phase task `CreateRunner` that runs a
module's entry point inside a target isolate.

Pointers are natural numbers and `0` is the null pointer.  C++ exceptions are
values of `Exception`; a function that can throw returns the exception next to
the state it leaves behind.
-/

set_option linter.dupNamespace false

namespace ivm

/-! ## Exceptions -/

/-- The exceptions that can leave the embedded functions. -/
inductive Exception where
  /-- `RuntimeGenericError(message)` of isolated-vm. -/
  | RuntimeGenericError (message : String)
  /-- `std::bad_cast`, thrown by a failed `dynamic_cast` to a reference type. -/
  | bad_cast
  /-- Whatever the native code of an extension throws. -/
  | native (what : String)
  /-- The error the specification names for a stale context handle. -/
  | InvalidContextError
  /-- The error the specification names for a target isolate that is gone. -/
  | TargetDisposedError
  deriving DecidableEq, Repr

/-! ## The dynamic loader (libuv) -/

/-- A shared object on disk, reduced to its dynamic symbol table: symbol name
to address. -/
structure Library where
  symbols : List (String × Nat)
  deriving DecidableEq, Repr

/-- The `uv_lib_t` of libuv. `handle` is `none` until `uv_dlopen` succeeded and
again after `uv_dlclose`. -/
structure uv_lib_t where
  path : String
  handle : Option Library
  deriving DecidableEq, Repr

/-- One call into the dynamic loader. -/
inductive DlCall where
  | dlopen (filename : String)
  | dlsym (path : String) (name : String)
  | dlclose (path : String)
  deriving DecidableEq, Repr

/-- The part of the host process the constructor of `NativeModule` can see. -/
structure Process where
  /-- `IsolateEnvironment::GetCurrent().IsDefault()`. -/
  isDefault : Bool
  /-- The shared objects `dlopen` can find, by path. -/
  files : List (String × Library)
  /-- The libraries currently open, one entry per successful `uv_dlopen` that
  has not been closed. -/
  openLibs : List String
  /-- Every loader call made so far, oldest first. -/
  dlLog : List DlCall
  deriving DecidableEq, Repr

/-- `uv_dlopen(filename, &lib)`: returns `0` and an open handle when the file can
be loaded, `-1` and no handle otherwise. -/
def uv_dlopen (filename : String) (w : Process) : Int × uv_lib_t × Process :=
  let w1 : Process := { w with dlLog := w.dlLog ++ [DlCall.dlopen filename] }
  match w.files.lookup filename with
  | some l => (0, ⟨filename, some l⟩, { w1 with openLibs := filename :: w1.openLibs })
  | none => (-1, ⟨filename, none⟩, w1)

/-- `uv_dlsym(&lib, name, &ptr)`: stores the result of `dlsym` in `ptr` and
returns `0` when the symbol was found, `-1` (with `ptr` null) when it was not. -/
def uv_dlsym (lib : uv_lib_t) (name : String) (w : Process) : Int × Nat × Process :=
  let w1 : Process := { w with dlLog := w.dlLog ++ [DlCall.dlsym lib.path name] }
  match lib.handle.bind (fun l => l.symbols.lookup name) with
  | some addr => (0, addr, w1)
  | none => (-1, 0, w1)

/-- `uv_dlclose(&lib)`: releases the handle, if there is one. -/
def uv_dlclose (lib : uv_lib_t) (w : Process) : uv_lib_t × Process :=
  let w1 : Process := { w with dlLog := w.dlLog ++ [DlCall.dlclose lib.path] }
  match lib.handle with
  | some _ => ({ lib with handle := none }, { w1 with openLibs := w1.openLibs.erase lib.path })
  | none => (lib, w1)

/-! ## NativeModule -/

/-- The members of `class NativeModule`: the library and the two entry points
resolved from it. -/
structure NativeModule where
  lib : uv_lib_t
  init : Nat
  init_loop : Nat
  deriving DecidableEq, Repr

/-- Message of the error thrown outside the default isolate. -/
def precheckError : Exception :=
  .RuntimeGenericError "NativeModule may only be instantiated from default nodejs isolate"

/-- Message of the error thrown when `uv_dlopen` fails. -/
def loadError : Exception :=
  .RuntimeGenericError "Failed to load module"

/-- Message of the error thrown when the entry points cannot be resolved. -/
def incompatibleError : Exception :=
  .RuntimeGenericError "Module is not isolated-vm compatible"

/-- `NativeModule::NativeModule(const std::string& filename)`. -/
def NativeModule.NativeModule (filename : String) (w : Process) :
    Except Exception NativeModule × Process :=
  if !w.isDefault then
    (.error precheckError, w)
  else
    let o := uv_dlopen filename w
    if o.1 != 0 then
      (.error loadError, o.2.2)
    else
      let s1 := uv_dlsym o.2.1 "InitForContextWithLoop" o.2.2
      let s2 := uv_dlsym o.2.1 "InitForContext" s1.2.2
      if s2.1 != 0 || (s2.2.1 == 0 && s1.2.1 == 0) then
        (.error incompatibleError, (uv_dlclose o.2.1 s2.2.2).2)
      else
        (.ok ⟨o.2.1, s2.2.1, s1.2.1⟩, s2.2.2)

/-- A library exports `name` when its symbol table resolves it to a non-null
address. -/
def Library.exports (l : Library) (name : String) : Bool :=
  match l.symbols.lookup name with
  | some addr => addr != 0
  | none => false

/-- Number of `uv_dlclose` calls in a loader log. -/
def closeCount (log : List DlCall) : Nat :=
  log.countP (fun c => match c with | .dlclose _ => true | _ => false)

/-- `NativeModule::~NativeModule()`. -/
def NativeModule.destroy (self : ivm.NativeModule) (w : Process) : Process :=
  (uv_dlclose self.lib w).2

/-! ## Isolates and native code -/

/-- A JavaScript object, reduced to its own properties. -/
abbrev JsObject := List (String × Int)

/-- One call of an extension entry point, with the arguments it receives. -/
inductive EntryCall where
  /-- The call `init_loop(isolate, context, target, loop)`. -/
  | init_loop (fn isolate context target loop : Nat)
  /-- The call `init(isolate, context, target)`. -/
  | init (fn isolate context target : Nat)
  deriving DecidableEq, Repr

/-- The function pointer a call goes through. -/
def EntryCall.fn : EntryCall → Nat
  | .init_loop fn _ _ _ _ => fn
  | .init fn _ _ _ => fn

/-- The exports object a call receives. -/
def EntryCall.target : EntryCall → Nat
  | .init_loop _ _ _ target _ => target
  | .init _ _ _ target => target

/-- The behaviour of the loaded native code: what a call does to the objects of
the isolate it runs in, and the exception it throws, if any. Handing out
addresses stays with `Object::New`; the registry of the isolate is C++ state
the entry points have no access to. -/
abbrev NativeCode := EntryCall → List (Nat × JsObject) → Option Exception × List (Nat × JsObject)

/-- A `std::shared_ptr<NativeModule>`: the address of the managed object
(`get()`) together with the object, which nothing mutates once constructed. -/
structure shared_ptr where
  get : Nat
  obj : NativeModule
  deriving DecidableEq, Repr

/-- The state of one isolate as `CreateRunner::Phase2` sees it when it runs
inside that isolate. -/
structure IsolateEnvironment where
  /-- `Isolate::GetCurrent()`. -/
  isolate : Nat
  /-- The isolate has been disposed. -/
  disposed : Bool
  /-- Address `Object::New` hands out next. -/
  nextObject : Nat
  /-- The objects of the isolate, by address. -/
  objects : List (Nat × JsObject)
  /-- The dynamic type of `env->GetScheduler()` is `UvScheduler`. -/
  schedulerIsUv : Bool
  /-- `scheduler.GetLoop()`. -/
  loop : Nat
  /-- The member `native_modules`, a `std::unordered_map` from `NativeModule*`
  to `shared_ptr<NativeModule>`, in insertion order. -/
  native_modules : List (Nat × shared_ptr)
  /-- Every entry point call made in this isolate so far, oldest first. -/
  entryCalls : List EntryCall
  deriving DecidableEq, Repr

/-- Performs one entry point call: the native code runs on the objects of the
isolate and the call is recorded. -/
def invoke (code : NativeCode) (call : EntryCall) (env : IsolateEnvironment) :
    Option Exception × IsolateEnvironment :=
  ((code call env.objects).1,
    { env with objects := (code call env.objects).2, entryCalls := env.entryCalls ++ [call] })

/-- `NativeModule::InitForContext(isolate, context, target, loop)`. The result
is the exception the entry point threw, if any. -/
def NativeModule.InitForContext (code : NativeCode) (self : ivm.NativeModule)
    (isolate context target loop : Nat) (env : IsolateEnvironment) :
    Option Exception × IsolateEnvironment :=
  if self.init_loop != 0 then
    invoke code (.init_loop self.init_loop isolate context target loop) env
  else
    invoke code (.init self.init isolate context target) env

/-! ## Handles and transfer -/

/-- A `RemoteHandle<Context>`: the isolate that owns the context and the
context in it. -/
structure RemoteHandle where
  isolate : Nat
  context : Nat
  deriving DecidableEq, Repr

/-- A `ContextHandle`; `context` is `none` once the context is no longer live. -/
structure ContextHandle where
  context : Option RemoteHandle
  deriving DecidableEq, Repr

/-- The member of `class NativeModuleHandle`. -/
structure NativeModuleHandle where
  module : shared_ptr
  deriving DecidableEq, Repr

/-- The script-visible values the embedded functions return. -/
inductive JsValue where
  /-- An instance of the script class `NativeModule`. -/
  | NativeModuleHandle (handle : ivm.NativeModuleHandle)
  /-- A reference handle to an object of an isolate. -/
  | ReferenceHandle (isolate : Nat) (object : Nat)
  deriving DecidableEq, Repr

/-- The two `Transferable`s this file constructs. -/
inductive Transferable where
  /-- `NativeModuleTransferable(module)`. -/
  | NativeModuleTransferable (module : shared_ptr)
  /-- `ReferenceHandleTransferable(value)`, for an object of an isolate. -/
  | ReferenceHandleTransferable (isolate : Nat) (object : Nat)
  deriving DecidableEq, Repr

/-- `ClassHandle::NewInstance<NativeModuleHandle>(module)`: a new script
instance around `NativeModuleHandle::NativeModuleHandle(module)`. -/
def ClassHandle.NewInstance (module : shared_ptr) : JsValue :=
  .NativeModuleHandle ⟨module⟩

/-- `NativeModuleTransferable::TransferIn()`. -/
def NativeModuleTransferable.TransferIn (module : shared_ptr) (w : Process) :
    JsValue × Process :=
  (ClassHandle.NewInstance module, w)

/-- Modelled from the spec: `ReferenceHandleTransferable::TransferIn()` of
`reference_handle.cc`, which is not part of the sources at hand. The spec has it
"convert [the stored reference handle] into the caller-visible representation":
a reference handle to the object that was wrapped. -/
def ReferenceHandleTransferable.TransferIn (isolate object : Nat) : JsValue :=
  .ReferenceHandle isolate object

/-- `Transferable::TransferIn()`, dispatched on the dynamic type. -/
def Transferable.TransferIn (self : Transferable) (w : Process) : JsValue × Process :=
  match self with
  | .NativeModuleTransferable module => NativeModuleTransferable.TransferIn module w
  | .ReferenceHandleTransferable isolate object =>
    (ReferenceHandleTransferable.TransferIn isolate object, w)

/-- `NativeModuleHandle::TransferOut()`. Returns the envelope and the handle as
the call leaves it. -/
def NativeModuleHandle.TransferOut (self : NativeModuleHandle) (w : Process) :
    (Transferable × NativeModuleHandle) × Process :=
  ((.NativeModuleTransferable self.module, self), w)

/-- `NativeModuleHandle::New(value)`: the module is allocated at `address` by
`std::make_shared` when its constructor returns. -/
def NativeModuleHandle.New (address : Nat) (value : String) (w : Process) :
    Except Exception NativeModuleHandle × Process :=
  match NativeModule.NativeModule value w with
  | (.ok m, w1) => (.ok ⟨⟨address, m⟩⟩, w1)
  | (.error e, w1) => (.error e, w1)

/-- Calls `TransferOut` on `h` and `TransferIn` on the envelope, `n` times over.
Returns the values produced, the handle as it is left, and the process. -/
def transferTimes (h : NativeModuleHandle) : Nat → Process →
    List JsValue × NativeModuleHandle × Process
  | 0, w => ([], h, w)
  | n + 1, w =>
    let out := NativeModuleHandle.TransferOut h w
    let inn := Transferable.TransferIn out.1.1 out.2
    let rest := transferTimes out.1.2 n inn.2
    (inn.1 :: rest.1, rest.2.1, rest.2.2)

/-! ## CreateRunner -/

/-- The members of `class CreateRunner`; `result` is null until `Phase2` has
stored one. -/
structure CreateRunner where
  context : RemoteHandle
  module : shared_ptr
  result : Option Transferable
  deriving DecidableEq, Repr

/-- `CreateRunner::CreateRunner(context, module)`. -/
def CreateRunner.CreateRunner (context : RemoteHandle) (module : shared_ptr) :
    ivm.CreateRunner :=
  { context := context, module := module, result := none }

/-- Modelled from the spec: `Deref(context)` of `isolate/remote_handle.h`, which
is not part of the sources at hand. The spec: "`Deref(remoteContextRef) -> live
context` (fails if the isolate backing it is gone)", with `TargetDisposedError`. -/
def Deref (context : RemoteHandle) (env : IsolateEnvironment) : Except Exception Nat :=
  if env.disposed then .error .TargetDisposedError else .ok context.context

/-- `Object::New(isolate)` of V8: a fresh object without properties. -/
def Object.New (env : IsolateEnvironment) : Nat × IsolateEnvironment :=
  (env.nextObject,
    { env with nextObject := env.nextObject + 1,
               objects := (env.nextObject, []) :: env.objects })

/-- `std::unordered_map::emplace(key, value)`: inserts unless the key is already
present, in which case the map is left as it is. -/
def emplace (m : List (Nat × shared_ptr)) (key : Nat) (value : shared_ptr) :
    List (Nat × shared_ptr) :=
  if (m.lookup key).isSome then m else m ++ [(key, value)]

/-- `CreateRunner::Phase2()`, run inside the target isolate `env`. Returns the
runner as the call leaves it, or the exception that ended the call. The member
`module` is moved from on line 92 and is not read again; the embedding leaves
it in place. -/
def CreateRunner.Phase2 (code : NativeCode) (self : ivm.CreateRunner)
    (env : IsolateEnvironment) : Except Exception ivm.CreateRunner × IsolateEnvironment :=
  let isolate := env.isolate
  match Deref self.context env with
  | .error e => (.error e, env)
  | .ok context_handle =>
    let exports := Object.New env
    if !exports.2.schedulerIsUv then
      (.error .bad_cast, exports.2)
    else
      let r := NativeModule.InitForContext code self.module.obj isolate context_handle
        exports.1 exports.2.loop exports.2
      match r.1 with
      | some e => (.error e, r.2)
      | none =>
        let ptr := self.module.get
        (.ok { self with result := some (.ReferenceHandleTransferable isolate exports.1) },
          { r.2 with native_modules := emplace r.2.native_modules ptr self.module })

/-- `CreateRunner::Phase3()`, run back in the calling isolate; `none` when
`result` is null. -/
def CreateRunner.Phase3 (self : ivm.CreateRunner) (w : Process) : Option (JsValue × Process) :=
  self.result.map (fun result => Transferable.TransferIn result w)

/-! ## NativeModuleHandle::Create -/

/-- What a script call returns: a value, or a future that is settled with a
value or an error. -/
inductive Returned where
  | value (v : JsValue)
  | future (settled : Except Exception JsValue)

/-- Modelled from the spec: `ContextHandle::GetContext()` of `context_handle.cc`,
which is not part of the sources at hand. The spec: resolving the context handle
"fails with `InvalidContextError` if the context handle no longer refers to a
live context". -/
def ContextHandle.GetContext (self : ContextHandle) : Except Exception RemoteHandle :=
  match self.context with
  | some context => .ok context
  | none => .error .InvalidContextError

/-- Modelled from the spec: `ThreePhaseTask::Run<async, CreateRunner>` of
`isolate/three_phase_task.h`, which is not part of the sources at hand. The
spec: phase 2 runs inside the target isolate and phase 3 back in the caller;
"task errors in sync mode surface synchronously to the caller; in async mode
they reject the returned future", and the result of phase 3 "resolves the
pending future" or "is the direct return value". `target` is the state of the
isolate the holder stands for, `w` that of the calling process. -/
def ThreePhaseTask.Run (async : Nat) (code : NativeCode) (runner : CreateRunner)
    (target : IsolateEnvironment) (w : Process) :
    Except Exception Returned × IsolateEnvironment × Process :=
  let p2 := CreateRunner.Phase2 code runner target
  let outcome : Except Exception JsValue × Process :=
    match p2.1 with
    | .error e => (.error e, w)
    | .ok done =>
      match CreateRunner.Phase3 done w with
      | some r => (.ok r.1, r.2)
      | none => (.error (.native "null result"), w)
  if async = 0 then
    match outcome.1 with
    | .error e => (.error e, p2.2, outcome.2)
    | .ok v => (.ok (.value v), p2.2, outcome.2)
  else
    (.ok (.future outcome.1), p2.2, outcome.2)

/-- `NativeModuleHandle::Create<async>(context_handle)`. -/
def NativeModuleHandle.Create (async : Nat) (code : NativeCode) (self : NativeModuleHandle)
    (context_handle : ContextHandle) (target : IsolateEnvironment) (w : Process) :
    Except Exception Returned × IsolateEnvironment × Process :=
  match ContextHandle.GetContext context_handle with
  | .error e => (.error e, target, w)
  | .ok context =>
    ThreePhaseTask.Run async code (CreateRunner.CreateRunner context self.module) target w

/-! ## Observations used by the statements -/

/-- The value of property `name` of the object a reference handle points to,
read in the isolate `env`. -/
def JsValue.derefGet (v : JsValue) (name : String) (env : IsolateEnvironment) : Option Int :=
  match v with
  | .ReferenceHandle isolate object =>
    if isolate = env.isolate then (env.objects.lookup object).bind (fun o => o.lookup name)
    else none
  | .NativeModuleHandle _ => none

/-- The module a script value references, when it is a module handle. -/
def JsValue.module? (v : JsValue) : Option shared_ptr :=
  match v with
  | .NativeModuleHandle h => some h.module
  | .ReferenceHandle _ _ => none

/-- Runs `Phase2` of a fresh `CreateRunner` for each context in turn, all in the
isolate `env`, and stops at the first one that fails. Returns the runners of
the executions that succeeded. -/
def runPhase2s (code : NativeCode) (module : shared_ptr) :
    List RemoteHandle → IsolateEnvironment → Except Exception (List CreateRunner) × IsolateEnvironment
  | [], env => (.ok [], env)
  | context :: rest, env =>
    match CreateRunner.Phase2 code (CreateRunner.CreateRunner context module) env with
    | (.error e, env1) => (.error e, env1)
    | (.ok done, env1) =>
      match runPhase2s code module rest env1 with
      | (.error e, env2) => (.error e, env2)
      | (.ok dones, env2) => (.ok (done :: dones), env2)

/-- Every entry of the registry maps the address of a module to a shared
pointer to that address, and no address occurs twice. -/
def RegistryWf (m : List (Nat × shared_ptr)) : Prop :=
  (m.map Prod.fst).Nodup ∧ ∀ e ∈ m, e.2.get = e.1

/-- Native code that sets `exports.value = 42` and returns. -/
def setValue42 : NativeCode := fun call objects =>
  (none, (call.target, ((objects.lookup call.target).getD []).insert ("value", 42)) :: objects)

/-- A host process in the default isolate with `demo.node` on disk, which
exports both entry points, `loop_only.node`, which exports only the loop-aware
one, and `empty.node`, which exports neither. -/
def hostProcess : Process :=
  { isDefault := true
    files := [("demo.node", ⟨[("InitForContext", 4096), ("InitForContextWithLoop", 8192)]⟩),
              ("loop_only.node", ⟨[("InitForContextWithLoop", 4096)]⟩),
              ("empty.node", ⟨[("napi_register_module_v1", 4096)]⟩)]
    openLibs := []
    dlLog := [] }

/-- The process `hostProcess` seen from an isolate that is not the default one. -/
def sandboxProcess : Process :=
  { hostProcess with isDefault := false }

/-- The entry point call `NativeModule::InitForContext` makes for a module and
the arguments it is given. -/
def entryCallOf (m : NativeModule) (isolate context target loop : Nat) : EntryCall :=
  if m.init_loop != 0 then .init_loop m.init_loop isolate context target loop
  else .init m.init isolate context target

/-- The module the constructor returns for `demo.node` in `hostProcess`. -/
def demoModule : NativeModule :=
  { lib := ⟨"demo.node", some ⟨[("InitForContext", 4096), ("InitForContextWithLoop", 8192)]⟩⟩
    init := 4096
    init_loop := 8192 }

/-- A shared pointer to `demoModule`. -/
def demoPtr : shared_ptr :=
  { get := 7000, obj := demoModule }

/-- A live isolate with a libuv scheduler, two objects and an empty registry. -/
def demoEnv : IsolateEnvironment :=
  { isolate := 2
    disposed := false
    nextObject := 12
    objects := [(11, [("name", 1)]), (10, [])]
    schedulerIsUv := true
    loop := 500
    native_modules := []
    entryCalls := [] }

/-- The isolate `demoEnv` after it has been disposed. -/
def disposedEnv : IsolateEnvironment :=
  { demoEnv with disposed := true }

/-- Native code that throws and leaves the objects alone. -/
def throwingCode : NativeCode := fun _ objects =>
  (some (.native "init failed"), objects)

/-! ## The loader: lemmas -/

theorem uv_dlopen_some (filename : String) (w : Process) (l : Library)
    (h : w.files.lookup filename = some l) :
    uv_dlopen filename w = (0, ⟨filename, some l⟩,
      { w with dlLog := w.dlLog ++ [DlCall.dlopen filename], openLibs := filename :: w.openLibs }) := by
  simp [uv_dlopen, h]

theorem uv_dlsym_some (path name : String) (l : Library) (w : Process) (addr : Nat)
    (h : l.symbols.lookup name = some addr) :
    uv_dlsym ⟨path, some l⟩ name w
      = (0, addr, { w with dlLog := w.dlLog ++ [DlCall.dlsym path name] }) := by
  simp [uv_dlsym, h]

theorem uv_dlsym_none (path name : String) (l : Library) (w : Process)
    (h : l.symbols.lookup name = none) :
    uv_dlsym ⟨path, some l⟩ name w
      = (-1, 0, { w with dlLog := w.dlLog ++ [DlCall.dlsym path name] }) := by
  simp [uv_dlsym, h]

theorem closeCount_append (a b : List DlCall) :
    closeCount (a ++ b) = closeCount a + closeCount b := by
  simp [closeCount, List.countP_append]

theorem NativeModule_ok_entry_points (filename : String) (w : Process) (m : NativeModule)
    (h : (NativeModule.NativeModule filename w).1 = .ok m) :
    ¬(m.init = 0 ∧ m.init_loop = 0) := by
  simp only [NativeModule.NativeModule] at h
  split at h
  · simp at h
  · split at h
    · simp at h
    · split at h
      · simp at h
      · rename_i hc
        simp only [Except.ok.injEq] at h
        subst h
        have hc2 := hc
        simp only [Bool.or_eq_true, Bool.and_eq_true, bne_iff_ne, beq_iff_eq, not_or] at hc2
        exact hc2.2

/-! ## The loader: claims -/

/-- C1: outside the default isolate the constructor of `NativeModule` throws the
precheck error for every path, and leaves the process as it found it: the log of
loader calls and the set of open libraries are unchanged, so no `dlopen`,
`dlsym` or `dlclose` took place. -/
theorem C1_precheck_before_any_loader_call (filename : String) (w : Process)
    (h : w.isDefault = false) :
    NativeModule.NativeModule filename w = (.error precheckError, w) ∧
    (NativeModule.NativeModule filename w).2.dlLog = w.dlLog ∧
    (NativeModule.NativeModule filename w).2.openLibs = w.openLibs := by
  simp [NativeModule.NativeModule, h]

/-- C1, at a path that exists and at one that does not. -/
theorem C1_precheck_witness :
    sandboxProcess.isDefault = false ∧
    (NativeModule.NativeModule "demo.node" sandboxProcess = (.error precheckError, sandboxProcess) ∧
     (NativeModule.NativeModule "demo.node" sandboxProcess).2.dlLog = sandboxProcess.dlLog ∧
     (NativeModule.NativeModule "demo.node" sandboxProcess).2.openLibs = sandboxProcess.openLibs) ∧
    (NativeModule.NativeModule "missing.node" sandboxProcess = (.error precheckError, sandboxProcess) ∧
     (NativeModule.NativeModule "missing.node" sandboxProcess).2.dlLog = sandboxProcess.dlLog ∧
     (NativeModule.NativeModule "missing.node" sandboxProcess).2.openLibs = sandboxProcess.openLibs) :=
  ⟨rfl, C1_precheck_before_any_loader_call "demo.node" sandboxProcess rfl,
    C1_precheck_before_any_loader_call "missing.node" sandboxProcess rfl⟩

/-- C2, evaluated: in the default isolate, `loop_only.node` opens and exports
`InitForContextWithLoop`, yet the constructor throws the incompatible-module
error, because `uv_dlsym` for `InitForContext` does not return 0. -/
theorem C2_loop_only_library_is_rejected :
    hostProcess.isDefault = true ∧
    (uv_dlopen "loop_only.node" hostProcess).1 = 0 ∧
    (∃ l, hostProcess.files.lookup "loop_only.node" = some l ∧
      l.exports "InitForContextWithLoop" = true ∧ l.exports "InitForContext" = false) ∧
    (NativeModule.NativeModule "loop_only.node" hostProcess).1 = .error incompatibleError := by
  refine ⟨rfl, rfl, ⟨_, rfl, rfl, rfl⟩, rfl⟩

/-- C3: in the default isolate, a library that opens and exports neither entry
point makes the constructor throw the incompatible-module error after exactly
these loader calls: the open, the two lookups, and one close of the library
that was opened. The set of open libraries is the one before the call. -/
theorem C3_incompatible_closes_library (filename : String) (w : Process) (l : Library)
    (hdef : w.isDefault = true) (hopen : w.files.lookup filename = some l)
    (h1 : l.exports "InitForContext" = false)
    (h2 : l.exports "InitForContextWithLoop" = false) :
    (NativeModule.NativeModule filename w).1 = .error incompatibleError ∧
    (NativeModule.NativeModule filename w).2.dlLog = w.dlLog ++
      [.dlopen filename, .dlsym filename "InitForContextWithLoop",
       .dlsym filename "InitForContext", .dlclose filename] ∧
    closeCount (NativeModule.NativeModule filename w).2.dlLog = closeCount w.dlLog + 1 ∧
    (NativeModule.NativeModule filename w).2.openLibs = w.openLibs := by
  have key : NativeModule.NativeModule filename w = (.error incompatibleError,
      { w with dlLog := w.dlLog ++
          [.dlopen filename, .dlsym filename "InitForContextWithLoop",
           .dlsym filename "InitForContext", .dlclose filename] }) := by
    unfold Library.exports at h1 h2
    unfold NativeModule.NativeModule
    rw [uv_dlopen_some filename w l hopen]
    cases hs2 : l.symbols.lookup "InitForContextWithLoop" with
    | none =>
      simp only [uv_dlsym_none filename _ l _ hs2]
      cases hs1 : l.symbols.lookup "InitForContext" with
      | none => simp [uv_dlsym_none filename _ l _ hs1, hdef, uv_dlclose]
      | some a =>
        rw [hs1] at h1
        simp only [bne_eq_false_iff_eq] at h1
        simp [uv_dlsym_some filename _ l _ a hs1, hdef, uv_dlclose, h1]
    | some b =>
      rw [hs2] at h2
      simp only [bne_eq_false_iff_eq] at h2
      simp only [uv_dlsym_some filename _ l _ b hs2]
      cases hs1 : l.symbols.lookup "InitForContext" with
      | none => simp [uv_dlsym_none filename _ l _ hs1, hdef, uv_dlclose]
      | some a =>
        rw [hs1] at h1
        simp only [bne_eq_false_iff_eq] at h1
        simp [uv_dlsym_some filename _ l _ a hs1, hdef, uv_dlclose, h1, h2]
  rw [key]
  refine ⟨rfl, rfl, ?_, rfl⟩
  simp [closeCount_append, closeCount]

/-- C3, at `empty.node`. -/
theorem C3_incompatible_witness :
    (NativeModule.NativeModule "empty.node" hostProcess).1 = .error incompatibleError ∧
    (NativeModule.NativeModule "empty.node" hostProcess).2.dlLog = hostProcess.dlLog ++
      [.dlopen "empty.node", .dlsym "empty.node" "InitForContextWithLoop",
       .dlsym "empty.node" "InitForContext", .dlclose "empty.node"] ∧
    closeCount (NativeModule.NativeModule "empty.node" hostProcess).2.dlLog
      = closeCount hostProcess.dlLog + 1 ∧
    (NativeModule.NativeModule "empty.node" hostProcess).2.openLibs = hostProcess.openLibs :=
  C3_incompatible_closes_library "empty.node" hostProcess
    ⟨[("napi_register_module_v1", 4096)]⟩ rfl rfl rfl rfl

/-- C10: the constructor returns a module exactly when the isolate is the
default one, `uv_dlopen` returns 0, `uv_dlsym` for `InitForContext` returns 0
and the two resolved pointers are not both null; the module then records
those two pointers. Otherwise the error is that of the first check that fails,
in the order precheck, load, incompatible. In particular a failed lookup of
`InitForContext` rules success out whatever the lookup of
`InitForContextWithLoop` gave. -/
theorem C10_construction_succeeds_iff (filename : String) (w : Process) :
    let o := uv_dlopen filename w
    let s1 := uv_dlsym o.2.1 "InitForContextWithLoop" o.2.2
    let s2 := uv_dlsym o.2.1 "InitForContext" s1.2.2
    ((∃ m, (NativeModule.NativeModule filename w).1 = .ok m) ↔
      (w.isDefault = true ∧ o.1 = 0 ∧ s2.1 = 0 ∧ ¬(s2.2.1 = 0 ∧ s1.2.1 = 0))) ∧
    (∀ m, (NativeModule.NativeModule filename w).1 = .ok m → m = ⟨o.2.1, s2.2.1, s1.2.1⟩) ∧
    (w.isDefault = false →
      (NativeModule.NativeModule filename w).1 = .error precheckError) ∧
    (w.isDefault = true → o.1 ≠ 0 →
      (NativeModule.NativeModule filename w).1 = .error loadError) ∧
    (w.isDefault = true → o.1 = 0 → (s2.1 ≠ 0 ∨ (s2.2.1 = 0 ∧ s1.2.1 = 0)) →
      (NativeModule.NativeModule filename w).1 = .error incompatibleError) ∧
    (s2.1 ≠ 0 → ∀ m, (NativeModule.NativeModule filename w).1 ≠ .ok m) := by
  intro o s1 s2
  have hform : NativeModule.NativeModule filename w =
      if !w.isDefault then (.error precheckError, w)
      else if o.1 != 0 then (.error loadError, o.2.2)
      else if s2.1 != 0 || (s2.2.1 == 0 && s1.2.1 == 0) then
        (.error incompatibleError, (uv_dlclose o.2.1 s2.2.2).2)
      else (.ok ⟨o.2.1, s2.2.1, s1.2.1⟩, s2.2.2) := rfl
  rw [hform]
  cases hd : w.isDefault
  · simp
  · by_cases ho : o.1 = 0
    · by_cases hs : s2.1 = 0
      · by_cases hn : s2.2.1 = 0 ∧ s1.2.1 = 0
        · simp [ho, hs, hn]
        · have hn2 : ¬ (s2.2.1 = 0 ∧ s1.2.1 = 0) := hn
          simp only [not_and] at hn
          simp [ho, hs, hn, hn2]
      · simp [ho, hs]
    · simp [ho]

/-! ## Dispatch -/

/-- C4: a module the constructor returned has at least one non-null entry
point, and `InitForContext` on it performs exactly one entry point call, through
a non-null pointer: the loop-aware entry point with the loop whenever it is
recorded (whether or not the simple one is), and otherwise the simple entry
point with isolate, context and exports only. -/
theorem C4_dispatch_calls_one_recorded_entry_point (filename : String) (w : Process)
    (m : NativeModule) (hok : (NativeModule.NativeModule filename w).1 = .ok m)
    (code : NativeCode) (isolate context target loop : Nat) (env : IsolateEnvironment) :
    (m.init ≠ 0 ∨ m.init_loop ≠ 0) ∧
    ∃ c, (NativeModule.InitForContext code m isolate context target loop env).2.entryCalls
        = env.entryCalls ++ [c] ∧
      c.fn ≠ 0 ∧
      (m.init_loop ≠ 0 → c = .init_loop m.init_loop isolate context target loop) ∧
      (m.init_loop = 0 → c = .init m.init isolate context target) := by
  have hne := NativeModule_ok_entry_points filename w m hok
  refine ⟨by omega, ?_⟩
  by_cases hl : m.init_loop = 0
  · refine ⟨.init m.init isolate context target, ?_, ?_, ?_, ?_⟩
    · simp [NativeModule.InitForContext, hl, invoke]
    · simp only [EntryCall.fn]; omega
    · intro h; exact absurd hl h
    · intro _; rfl
  · refine ⟨.init_loop m.init_loop isolate context target loop, ?_, ?_, ?_, ?_⟩
    · simp [NativeModule.InitForContext, hl, invoke]
    · simpa [EntryCall.fn] using hl
    · intro _; rfl
    · intro h; exact absurd h hl

/-- C4, at the module loaded from `demo.node`, which records both entry
points: the call goes through the loop-aware one. -/
theorem C4_dispatch_witness :
    (NativeModule.NativeModule "demo.node" hostProcess).1 = .ok demoModule ∧
    ((demoModule.init ≠ 0 ∨ demoModule.init_loop ≠ 0) ∧
    ∃ c, (NativeModule.InitForContext setValue42 demoModule 2 3 12 500 demoEnv).2.entryCalls
        = demoEnv.entryCalls ++ [c] ∧
      c.fn ≠ 0 ∧
      (demoModule.init_loop ≠ 0 → c = .init_loop demoModule.init_loop 2 3 12 500) ∧
      (demoModule.init_loop = 0 → c = .init demoModule.init 2 3 12)) :=
  ⟨rfl, C4_dispatch_calls_one_recorded_entry_point "demo.node" hostProcess demoModule rfl
    setValue42 2 3 12 500 demoEnv⟩

/-! ## Phase 2: lemmas -/

theorem InitForContext_eq_invoke (code : NativeCode) (m : NativeModule)
    (isolate context target loop : Nat) (env : IsolateEnvironment) :
    NativeModule.InitForContext code m isolate context target loop env
      = invoke code (entryCallOf m isolate context target loop) env := by
  unfold NativeModule.InitForContext entryCallOf
  split <;> rfl

theorem entryCallOf_target (m : NativeModule) (isolate context target loop : Nat) :
    (entryCallOf m isolate context target loop).target = target := by
  unfold entryCallOf
  split <;> rfl

theorem Phase2_disposed (code : NativeCode) (runner : CreateRunner) (env : IsolateEnvironment)
    (h : env.disposed = true) :
    CreateRunner.Phase2 code runner env = (.error .TargetDisposedError, env) := by
  simp [CreateRunner.Phase2, Deref, h]

/-- The one shape `Phase2` has in a live isolate. -/
theorem Phase2_live (code : NativeCode) (runner : CreateRunner) (env : IsolateEnvironment)
    (h : env.disposed = false) :
    CreateRunner.Phase2 code runner env =
      if env.schedulerIsUv = false then (.error .bad_cast, (Object.New env).2)
      else
        match (code (entryCallOf runner.module.obj env.isolate runner.context.context
            env.nextObject env.loop) ((env.nextObject, []) :: env.objects)).1 with
        | some e => (.error e,
            (invoke code (entryCallOf runner.module.obj env.isolate runner.context.context
              env.nextObject env.loop) (Object.New env).2).2)
        | none =>
          (.ok { runner with
              result := some (.ReferenceHandleTransferable env.isolate env.nextObject) },
            { (invoke code (entryCallOf runner.module.obj env.isolate runner.context.context
                env.nextObject env.loop) (Object.New env).2).2 with
              native_modules := emplace env.native_modules runner.module.get runner.module }) := by
  simp only [CreateRunner.Phase2, Deref, h, InitForContext_eq_invoke]
  cases hs : env.schedulerIsUv
  · simp [Object.New, hs]
  · simp [Object.New, hs, invoke]

/-- What a successful `Phase2` did. -/
theorem Phase2_ok (code : NativeCode) (runner done : CreateRunner)
    (env env' : IsolateEnvironment)
    (h : CreateRunner.Phase2 code runner env = (.ok done, env')) :
    env.disposed = false ∧ env.schedulerIsUv = true ∧
    (code (entryCallOf runner.module.obj env.isolate runner.context.context
        env.nextObject env.loop) ((env.nextObject, []) :: env.objects)).1 = none ∧
    done = { runner with
      result := some (.ReferenceHandleTransferable env.isolate env.nextObject) } ∧
    env' = { env with
      nextObject := env.nextObject + 1
      objects := (code (entryCallOf runner.module.obj env.isolate runner.context.context
        env.nextObject env.loop) ((env.nextObject, []) :: env.objects)).2
      entryCalls := env.entryCalls ++ [entryCallOf runner.module.obj env.isolate
        runner.context.context env.nextObject env.loop]
      native_modules := emplace env.native_modules runner.module.get runner.module } := by
  cases hd : env.disposed
  · rw [Phase2_live code runner env hd] at h
    cases hs : env.schedulerIsUv
    · simp [hs] at h
    · simp only [hs, Bool.true_eq_false, if_false] at h
      split at h
      · simp at h
      · rename_i hnone
        simp only [Prod.mk.injEq, Except.ok.injEq] at h
        refine ⟨rfl, rfl, hnone, h.1.symm, ?_⟩
        rw [← h.2]
        simp [invoke, Object.New, hd, hs]
  · rw [Phase2_disposed code runner env hd] at h
    simp at h

/-- A failed `Phase2` leaves the registry alone. -/
theorem Phase2_error_registry (code : NativeCode) (runner : CreateRunner)
    (env env' : IsolateEnvironment) (e : Exception)
    (h : CreateRunner.Phase2 code runner env = (.error e, env')) :
    env'.native_modules = env.native_modules := by
  cases hd : env.disposed
  · rw [Phase2_live code runner env hd] at h
    cases hs : env.schedulerIsUv
    · simp only [hs, if_true, Prod.mk.injEq] at h
      rw [← h.2]
      rfl
    · simp only [hs, Bool.true_eq_false, if_false] at h
      split at h
      · simp only [Prod.mk.injEq] at h
        rw [← h.2]
        rfl
      · simp at h
  · rw [Phase2_disposed code runner env hd] at h
    simp only [Prod.mk.injEq] at h
    rw [← h.2]

/-! ## The registry: lemmas -/

theorem emplace_extends (m : List (Nat × shared_ptr)) (k : Nat) (v : shared_ptr) :
    m <+: emplace m k v := by
  unfold emplace
  split
  · exact List.prefix_refl m
  · exact List.prefix_append m _

theorem emplace_lookup_of_some (m : List (Nat × shared_ptr)) (k : Nat) (v : shared_ptr)
    (k0 : Nat) (x : shared_ptr) (h : m.lookup k0 = some x) :
    (emplace m k v).lookup k0 = some x := by
  unfold emplace
  split
  · exact h
  · simp [List.lookup_append, h]

theorem emplace_lookup_of_none (m : List (Nat × shared_ptr)) (k : Nat) (v : shared_ptr)
    (h : m.lookup k = none) :
    (emplace m k v).lookup k = some v := by
  simp [emplace, h, List.lookup_append, List.lookup]

theorem emplace_lookup_isSome (m : List (Nat × shared_ptr)) (k : Nat) (v : shared_ptr) :
    ((emplace m k v).lookup k).isSome = true := by
  cases h : m.lookup k with
  | none => simp [emplace_lookup_of_none m k v h]
  | some x => simp [emplace_lookup_of_some m k v k x h]

theorem emplace_idem (m : List (Nat × shared_ptr)) (k : Nat) (v : shared_ptr) :
    emplace (emplace m k v) k v = emplace m k v := by
  have h := emplace_lookup_isSome m k v
  generalize emplace m k v = m1 at h ⊢
  simp [emplace, h]

theorem lookup_none_iff_not_mem_keys (m : List (Nat × shared_ptr)) (k : Nat) :
    m.lookup k = none ↔ k ∉ m.map Prod.fst := by
  induction m with
  | nil => simp
  | cons a t ih =>
    obtain ⟨a1, a2⟩ := a
    by_cases hk : k = a1
    · subst hk
      simp [List.lookup]
    · have hk2 : (k == a1) = false := by simpa using hk
      simp only [List.lookup, hk2, List.map_cons, List.mem_cons, hk, false_or]
      exact ih

theorem lookup_mem (m : List (Nat × shared_ptr)) (k : Nat) (x : shared_ptr)
    (h : m.lookup k = some x) : (k, x) ∈ m := by
  induction m with
  | nil => simp at h
  | cons a t ih =>
    obtain ⟨a1, a2⟩ := a
    by_cases hk : k = a1
    · subst hk
      simp [List.lookup] at h
      simp [h]
    · have hk2 : (k == a1) = false := by simpa using hk
      simp only [List.lookup, hk2] at h
      exact List.mem_cons_of_mem _ (ih h)

theorem emplace_wf (m : List (Nat × shared_ptr)) (v : shared_ptr) (h : RegistryWf m) :
    RegistryWf (emplace m v.get v) := by
  unfold emplace
  split
  · exact h
  · rename_i hnone
    have hk : v.get ∉ m.map Prod.fst := by
      rw [← lookup_none_iff_not_mem_keys]
      cases hl : List.lookup v.get m with
      | none => rfl
      | some x => rw [hl] at hnone; exact absurd rfl hnone
    refine ⟨?_, ?_⟩
    · rw [List.map_append, List.nodup_append]
      refine ⟨h.1, by simp, ?_⟩
      intro a ha hb
      simp only [List.map_cons, List.map_nil, List.mem_singleton] at hb
      subst hb
      exact hk ha
    · intro e he
      rw [List.mem_append] at he
      rcases he with he | he
      · exact h.2 e he
      · simp only [List.mem_singleton] at he
        subst he
        rfl

theorem wf_count_key (m : List (Nat × shared_ptr)) (k : Nat) (h : RegistryWf m)
    (hk : (m.lookup k).isSome = true) :
    (m.map Prod.fst).count k = 1 := by
  apply List.count_eq_one_of_mem h.1
  by_contra hc
  rw [← lookup_none_iff_not_mem_keys] at hc
  simp [hc] at hk

theorem wf_lookup_get (m : List (Nat × shared_ptr)) (k : Nat) (x : shared_ptr)
    (h : RegistryWf m) (hx : m.lookup k = some x) : x.get = k :=
  h.2 (k, x) (lookup_mem m k x hx)

/-- What a run of successful `Phase2`s did. -/
theorem runPhase2s_ok (code : NativeCode) (module : shared_ptr) :
    ∀ (contexts : List RemoteHandle) (env env' : IsolateEnvironment) (dones : List CreateRunner),
      runPhase2s code module contexts env = (.ok dones, env') →
      env'.isolate = env.isolate ∧
      env'.nextObject = env.nextObject + contexts.length ∧
      env'.native_modules =
        (if contexts = [] then env.native_modules
          else emplace env.native_modules module.get module) ∧
      (∃ calls : List EntryCall, env'.entryCalls = env.entryCalls ++ calls ∧
        calls.map EntryCall.target = List.range' env.nextObject contexts.length) ∧
      dones.map (fun d => d.result) = (List.range' env.nextObject contexts.length).map
        (fun t => some (Transferable.ReferenceHandleTransferable env.isolate t)) := by
  intro contexts
  induction contexts with
  | nil =>
    intro env env' dones h
    simp only [runPhase2s, Prod.mk.injEq, Except.ok.injEq] at h
    obtain ⟨h1, h2⟩ := h
    subst h1 h2
    exact ⟨rfl, rfl, by simp, ⟨[], by simp⟩, by simp⟩
  | cons c rest ih =>
    intro env env' dones h
    unfold runPhase2s at h
    cases hp : CreateRunner.Phase2 code (CreateRunner.CreateRunner c module) env with
    | mk r env1 =>
      cases r with
      | error e => simp [hp] at h
      | ok done =>
        cases hr : runPhase2s code module rest env1 with
        | mk r2 env2 =>
          cases r2 with
          | error e => simp [hp, hr] at h
          | ok dones2 =>
            simp only [hp, hr, Prod.mk.injEq, Except.ok.injEq] at h
            obtain ⟨hd, he⟩ := h
            subst hd he
            obtain ⟨_, _, _, hdone, henv1⟩ := Phase2_ok code _ done env env1 hp
            obtain ⟨i1, i2, i3, ⟨calls, i4, i5⟩, i6⟩ := ih env1 env2 dones2 hr
            have e1 : env1.isolate = env.isolate := by rw [henv1]
            have e2 : env1.nextObject = env.nextObject + 1 := by rw [henv1]
            have e3 : env1.native_modules = emplace env.native_modules module.get module := by
              rw [henv1]; rfl
            have e4 : env1.entryCalls = env.entryCalls ++ [entryCallOf module.obj env.isolate
                c.context env.nextObject env.loop] := by
              rw [henv1]; rfl
            refine ⟨by rw [i1, e1], by rw [i2, e2, List.length_cons]; omega, ?_, ?_, ?_⟩
            · rw [i3, e3]
              by_cases hrest : rest = []
              · simp [hrest]
              · simp [hrest, emplace_idem]
            · refine ⟨entryCallOf module.obj env.isolate c.context env.nextObject env.loop
                :: calls, ?_, ?_⟩
              · rw [i4, e4]; simp
              · rw [List.map_cons, i5, e2, entryCallOf_target, List.length_cons,
                  List.range'_succ]
            · rw [List.map_cons, i6, e1, e2, hdone, List.length_cons, List.range'_succ]
              rfl

/-! ## Phase 2 and phase 3: claims -/

/-- C5: after a successful `Phase2`, `Phase3` returns a reference handle to
the object `Object::New` created in that `Phase2`. That object was created
without properties, it is the `target` of the one entry point call made, and
the objects of the isolate afterwards are exactly what that call left behind.
So reading a property through the returned handle gives what the initializer
stored in its exports object; in particular `42` for `value` when it stored
`exports.value = 42`. -/
theorem C5_create_returns_reference_to_exports (code : NativeCode)
    (runner done : CreateRunner) (env env' : IsolateEnvironment) (w : Process)
    (h : CreateRunner.Phase2 code runner env = (.ok done, env')) :
    ∃ call : EntryCall,
      call = entryCallOf runner.module.obj env.isolate runner.context.context
        env.nextObject env.loop ∧
      call.target = env.nextObject ∧
      ((Object.New env).2.objects.lookup call.target = some [] ∧
        (Object.New env).1 = call.target) ∧
      env'.entryCalls = env.entryCalls ++ [call] ∧
      env'.objects = (code call (Object.New env).2.objects).2 ∧
      CreateRunner.Phase3 done w = some (.ReferenceHandle env.isolate call.target, w) ∧
      (∀ name : String,
        (JsValue.ReferenceHandle env.isolate call.target).derefGet name env'
          = ((code call (Object.New env).2.objects).2.lookup call.target).bind
              (fun o => o.lookup name)) ∧
      (((code call (Object.New env).2.objects).2.lookup call.target).bind
          (fun o => o.lookup "value") = some 42 →
        (JsValue.ReferenceHandle env.isolate call.target).derefGet "value" env' = some 42) := by
  obtain ⟨_, _, _, hdone, henv⟩ := Phase2_ok code runner done env env' h
  have ht := entryCallOf_target runner.module.obj env.isolate runner.context.context
    env.nextObject env.loop
  have hderef : ∀ name : String,
      (JsValue.ReferenceHandle env.isolate env.nextObject).derefGet name env'
        = ((code (entryCallOf runner.module.obj env.isolate runner.context.context
            env.nextObject env.loop) (Object.New env).2.objects).2.lookup env.nextObject).bind
              (fun o => o.lookup name) := by
    intro name
    rw [henv]
    simp [JsValue.derefGet, Object.New]
  refine ⟨_, rfl, ht, ⟨?_, ?_⟩, ?_, ?_, ?_, ?_, ?_⟩
  · rw [ht]; simp [Object.New]
  · rw [ht]; rfl
  · rw [henv]
  · rw [henv]; rfl
  · rw [hdone, ht]
    simp [CreateRunner.Phase3, Transferable.TransferIn, ReferenceHandleTransferable.TransferIn]
  · intro name
    rw [ht]
    exact hderef name
  · intro h42
    rw [ht] at h42 ⊢
    rw [hderef "value"]
    exact h42

/-- C5, for native code that sets `exports.value = 42`, run for `demoPtr` in
`demoEnv`: the handle returned refers to object 12 and its `value` reads 42. -/
theorem C5_create_witness :
    (CreateRunner.Phase2 setValue42 (CreateRunner.CreateRunner ⟨2, 3⟩ demoPtr) demoEnv).1
      = .ok ⟨⟨2, 3⟩, demoPtr, some (.ReferenceHandleTransferable 2 12)⟩ ∧
    CreateRunner.Phase3 ⟨⟨2, 3⟩, demoPtr, some (.ReferenceHandleTransferable 2 12)⟩ hostProcess
      = some (.ReferenceHandle 2 12, hostProcess) ∧
    (JsValue.ReferenceHandle 2 12).derefGet "value"
      (CreateRunner.Phase2 setValue42 (CreateRunner.CreateRunner ⟨2, 3⟩ demoPtr) demoEnv).2
      = some 42 := by
  obtain ⟨call, hcall, _, _, _, _, h3, _, h42⟩ :=
    C5_create_returns_reference_to_exports setValue42
      (CreateRunner.CreateRunner ⟨2, 3⟩ demoPtr)
      ⟨⟨2, 3⟩, demoPtr, some (.ReferenceHandleTransferable 2 12)⟩ demoEnv
      (CreateRunner.Phase2 setValue42 (CreateRunner.CreateRunner ⟨2, 3⟩ demoPtr) demoEnv).2
      hostProcess rfl
  subst hcall
  exact ⟨rfl, h3, h42 rfl⟩

/-- C6: after `n ≥ 1` successful executions of `Phase2` for one module against
contexts of one isolate, whose registry was a well-formed map before, the
registry has exactly one entry under the address of the module and that entry
is a shared pointer to that address (the module itself when the address was
not registered before); the registry before is a prefix of the registry after,
so every entry that was present is still there with its value; and `n` entry
point calls were made, the `i`-th on the object `Object::New` created in the
`i`-th execution, so on `n` different objects, none of which existed before,
each of which is what the corresponding execution stored as its result. -/
theorem C6_registry_holds_module_once (code : NativeCode) (module : shared_ptr)
    (contexts : List RemoteHandle) (env env' : IsolateEnvironment) (dones : List CreateRunner)
    (hn : 1 ≤ contexts.length) (hwf : RegistryWf env.native_modules)
    (h : runPhase2s code module contexts env = (.ok dones, env')) :
    (env'.native_modules.map Prod.fst).count module.get = 1 ∧
    (∃ sp, env'.native_modules.lookup module.get = some sp ∧ sp.get = module.get) ∧
    (env.native_modules.lookup module.get = none →
      env'.native_modules.lookup module.get = some module) ∧
    env.native_modules <+: env'.native_modules ∧
    (∀ k v, env.native_modules.lookup k = some v → env'.native_modules.lookup k = some v) ∧
    (∃ calls : List EntryCall, env'.entryCalls = env.entryCalls ++ calls ∧
      calls.length = contexts.length ∧
      calls.map EntryCall.target = List.range' env.nextObject contexts.length ∧
      (calls.map EntryCall.target).Nodup ∧
      (∀ c ∈ calls, env.nextObject ≤ c.target)) ∧
    dones.map (fun d => d.result) = (List.range' env.nextObject contexts.length).map
      (fun t => some (Transferable.ReferenceHandleTransferable env.isolate t)) := by
  obtain ⟨_, _, hreg, ⟨calls, hcalls, htargets⟩, hres⟩ :=
    runPhase2s_ok code module contexts env env' dones h
  have hne : contexts ≠ [] := by
    intro hc
    rw [hc] at hn
    simp at hn
  simp only [hne, if_false] at hreg
  have hwf' : RegistryWf env'.native_modules := by
    rw [hreg]
    exact emplace_wf env.native_modules module hwf
  have hsome : (env'.native_modules.lookup module.get).isSome = true := by
    rw [hreg]
    exact emplace_lookup_isSome env.native_modules module.get module
  refine ⟨wf_count_key _ _ hwf' hsome, ?_, ?_, ?_, ?_, ⟨calls, hcalls, ?_, htargets, ?_, ?_⟩, hres⟩
  · cases hl : env'.native_modules.lookup module.get with
    | none => rw [hl] at hsome; simp at hsome
    | some sp => exact ⟨sp, rfl, wf_lookup_get _ _ _ hwf' hl⟩
  · intro hnone
    rw [hreg]
    exact emplace_lookup_of_none _ _ _ hnone
  · rw [hreg]
    exact emplace_extends _ _ _
  · intro k v hk
    rw [hreg]
    exact emplace_lookup_of_some _ _ _ k v hk
  · have := congrArg List.length htargets
    simpa using this
  · rw [htargets]
    exact List.nodup_range' _ _
  · intro c hc
    have hm : c.target ∈ calls.map EntryCall.target := List.mem_map_of_mem _ hc
    rw [htargets, List.mem_range'_1] at hm
    exact hm.1

/-- C6, for two executions against contexts 3 and 4 of `demoEnv`: one entry for
the module, two calls, on objects 12 and 13. -/
theorem C6_registry_witness :
    1 ≤ [(⟨2, 3⟩ : RemoteHandle), ⟨2, 4⟩].length ∧
    RegistryWf demoEnv.native_modules ∧
    (runPhase2s setValue42 demoPtr [⟨2, 3⟩, ⟨2, 4⟩] demoEnv).1
      = .ok [⟨⟨2, 3⟩, demoPtr, some (.ReferenceHandleTransferable 2 12)⟩,
             ⟨⟨2, 4⟩, demoPtr, some (.ReferenceHandleTransferable 2 13)⟩] ∧
    (((runPhase2s setValue42 demoPtr [⟨2, 3⟩, ⟨2, 4⟩] demoEnv).2.native_modules.map
      Prod.fst).count demoPtr.get = 1) ∧
    (runPhase2s setValue42 demoPtr [⟨2, 3⟩, ⟨2, 4⟩] demoEnv).2.native_modules
      = [(7000, demoPtr)] ∧
    (runPhase2s setValue42 demoPtr [⟨2, 3⟩, ⟨2, 4⟩] demoEnv).2.entryCalls
      = [.init_loop 8192 2 3 12 500, .init_loop 8192 2 4 13 500] := by
  have hwf : RegistryWf demoEnv.native_modules := by
    simp [RegistryWf, demoEnv]
  have hc := C6_registry_holds_module_once setValue42 demoPtr [⟨2, 3⟩, ⟨2, 4⟩] demoEnv
    (runPhase2s setValue42 demoPtr [⟨2, 3⟩, ⟨2, 4⟩] demoEnv).2
    [⟨⟨2, 3⟩, demoPtr, some (.ReferenceHandleTransferable 2 12)⟩,
     ⟨⟨2, 4⟩, demoPtr, some (.ReferenceHandleTransferable 2 13)⟩]
    (by simp) hwf rfl
  exact ⟨by simp, hwf, rfl, hc.1, rfl, rfl⟩

/-- C7: when `Phase2` fails, the registry of the isolate is the one before the
call. In a disposed isolate `Phase2` does fail, with the disposed-target error,
and leaves the whole isolate as it was: no object was created, no entry point
was called, nothing was registered. In a live isolate with a libuv scheduler a
failure means the one entry point call that was made threw the error that
`Phase2` ends with, and the module was not registered by this call. -/
theorem C7_failed_phase2_registers_nothing (code : NativeCode) (runner : CreateRunner)
    (env env' : IsolateEnvironment) (e : Exception)
    (h : CreateRunner.Phase2 code runner env = (.error e, env')) :
    env'.native_modules = env.native_modules ∧
    (∀ e0, Deref runner.context env = .error e0 →
      e = e0 ∧ env' = env ∧ env'.nextObject = env.nextObject ∧
      env'.objects = env.objects ∧ env'.entryCalls = env.entryCalls) ∧
    (env.disposed = true →
      CreateRunner.Phase2 code runner env = (.error .TargetDisposedError, env)) ∧
    (env.disposed = false → env.schedulerIsUv = true →
      (NativeModule.InitForContext code runner.module.obj env.isolate runner.context.context
        (Object.New env).1 (Object.New env).2.loop (Object.New env).2).1 = some e ∧
      env'.entryCalls = env.entryCalls ++ [entryCallOf runner.module.obj env.isolate
        runner.context.context env.nextObject env.loop] ∧
      env'.native_modules.lookup runner.module.get
        = env.native_modules.lookup runner.module.get) := by
  refine ⟨Phase2_error_registry code runner env env' e h, ?_, ?_, ?_⟩
  · intro e0 he0
    have hd : env.disposed = true := by
      cases hd : env.disposed
      · simp [Deref, hd] at he0
      · rfl
    rw [Phase2_disposed code runner env hd] at h
    simp only [Deref, hd, if_true, Except.error.injEq] at he0
    simp only [Prod.mk.injEq, Except.error.injEq] at h
    obtain ⟨h1, h2⟩ := h
    subst h2
    exact ⟨by rw [← h1, he0], rfl, rfl, rfl, rfl⟩
  · intro hd
    exact Phase2_disposed code runner env hd
  · intro hd hs
    rw [Phase2_live code runner env hd] at h
    simp only [hs, Bool.true_eq_false, if_false] at h
    split at h
    · rename_i e1 hthrow
      simp only [Prod.mk.injEq, Except.error.injEq] at h
      obtain ⟨h1, h2⟩ := h
      subst h1 h2
      refine ⟨?_, ?_, ?_⟩
      · rw [InitForContext_eq_invoke]
        simpa [invoke, Object.New] using hthrow
      · simp [invoke, Object.New]
      · simp [invoke, Object.New]
    · simp at h

/-- C7, in `demoEnv` for native code that throws: the exports object was
created and the entry point called, and the registry is the one before. -/
theorem C7_failed_phase2_witness :
    CreateRunner.Phase2 throwingCode (CreateRunner.CreateRunner ⟨2, 3⟩ demoPtr) demoEnv
      = (.error (.native "init failed"),
          { demoEnv with nextObject := 13, objects := (12, []) :: demoEnv.objects,
                         entryCalls := [.init_loop 8192 2 3 12 500] }) ∧
    ({ demoEnv with nextObject := 13, objects := (12, []) :: demoEnv.objects,
                    entryCalls := [.init_loop 8192 2 3 12 500] } :
        IsolateEnvironment).native_modules = demoEnv.native_modules :=
  ⟨rfl, (C7_failed_phase2_registers_nothing throwingCode
      (CreateRunner.CreateRunner ⟨2, 3⟩ demoPtr) demoEnv
      { demoEnv with nextObject := 13, objects := (12, []) :: demoEnv.objects,
                     entryCalls := [.init_loop 8192 2 3 12 500] }
      (.native "init failed") rfl).1⟩

/-! ## Transfer -/

theorem transferTimes_spec (h : NativeModuleHandle) :
    ∀ (n : Nat) (w : Process),
      transferTimes h n w = (List.replicate n (JsValue.NativeModuleHandle ⟨h.module⟩), h, w) := by
  intro n
  induction n with
  | zero => intro w; rfl
  | succ n ih =>
    intro w
    simp only [transferTimes, NativeModuleHandle.TransferOut, Transferable.TransferIn,
      NativeModuleTransferable.TransferIn, ClassHandle.NewInstance, ih, List.replicate_succ]

/-- C8: `n` rounds of `TransferOut` on a handle `h` followed by `TransferIn` on
the envelope yield `n` module handles, each of which references the module at
the address `h` references; `TransferOut` leaves the handle as it was, and
neither call touches the loader: the log of loader calls and the set of open
libraries are those before. -/
theorem C8_transfer_shares_module (h : NativeModuleHandle) (n : Nat) (w : Process) :
    (transferTimes h n w).1.length = n ∧
    (∀ v ∈ (transferTimes h n w).1,
      v.module? = some h.module ∧ ∃ m, v.module? = some m ∧ m.get = h.module.get) ∧
    (NativeModuleHandle.TransferOut h w).1.2.module = h.module ∧
    (transferTimes h n w).2.1 = h ∧
    (NativeModuleHandle.TransferOut h w).2 = w ∧
    (∀ t : Transferable, (Transferable.TransferIn t w).2 = w) ∧
    (transferTimes h n w).2.2.dlLog = w.dlLog ∧
    (transferTimes h n w).2.2.openLibs = w.openLibs := by
  rw [transferTimes_spec h n w]
  refine ⟨by simp, ?_, rfl, rfl, rfl, ?_, rfl, rfl⟩
  · intro v hv
    rw [List.eq_of_mem_replicate hv]
    exact ⟨rfl, h.module, rfl, rfl⟩
  · intro t
    cases t <;> rfl

/-! ## Create -/

/-- C9, evaluated: with a context handle that is no longer live, `Create<1>`
throws the invalid-context error to its caller, exactly as `Create<0>` does,
and returns no future; the target isolate and the process are untouched. A
failure inside the task, by contrast, does reach the caller of `Create<1>` as a
rejected future: with a live handle to a context of a disposed isolate the
call returns a future settled with the disposed-target error. -/
theorem C9_async_create_throws_synchronously (code : NativeCode) (h : NativeModuleHandle)
    (target : IsolateEnvironment) (w : Process) :
    NativeModuleHandle.Create 1 code h ⟨none⟩ target w
      = (.error .InvalidContextError, target, w) ∧
    NativeModuleHandle.Create 0 code h ⟨none⟩ target w
      = (.error .InvalidContextError, target, w) ∧
    (∀ settled, (NativeModuleHandle.Create 1 code h ⟨none⟩ target w).1
      ≠ .ok (.future settled)) ∧
    (∀ context, target.disposed = true →
      (NativeModuleHandle.Create 1 code h ⟨some context⟩ target w).1
        = .ok (.future (.error .TargetDisposedError))) := by
  refine ⟨rfl, rfl, ?_, ?_⟩
  · intro settled hc
    simp [NativeModuleHandle.Create, ContextHandle.GetContext] at hc
  · intro context hd
    simp [NativeModuleHandle.Create, ContextHandle.GetContext, ThreePhaseTask.Run,
      Phase2_disposed _ _ _ hd]

end ivm
